import Mathlib

/-
Verification of the styling configuration exported by src/tailwind.config.cjs.

The configuration module is a CommonJS file whose entire body is a single
assignment of an object literal to module.exports.  We embed JavaScript
values relevant to that file as an inductive type and the exported object
as a constant term, then prove the specified shape properties.
-/

/-- A shallow embedding of the JavaScript values that can occur in the
configuration file: strings, arrays and plain objects (ordered key/value
lists, as object literals are ordered in JavaScript). -/
inductive Value where
  | str : String → Value
  | arr : List Value → Value
  | obj : List (String × Value) → Value

namespace Value

/-- Property lookup on an object value: returns the value bound to the
first occurrence of the key, `none` on non-objects or missing keys. -/
def lookup : Value → String → Option Value
  | obj fields, k =>
      match fields.find? (fun p => p.1 == k) with
      | some p => some p.2
      | none => none
  | _, _ => none

/-- The ordered list of top-level keys of an object value (empty for
non-objects). -/
def keys : Value → List String
  | obj fields => fields.map Prod.fst
  | _ => []

/-- Whether the value is a string. -/
def isStr : Value → Bool
  | str _ => true
  | _ => false

/-- Whether the value is an array. -/
def isArr : Value → Bool
  | arr _ => true
  | _ => false

/-- Whether the value is an object (a mapping). -/
def isObj : Value → Bool
  | obj _ => true
  | _ => false

/-- Whether the value is an array all of whose elements are strings. -/
def isArrOfStr : Value → Bool
  | arr xs => xs.all isStr
  | _ => false

end Value

/-- The object literal assigned to `module.exports` in
src/tailwind.config.cjs, field by field in source order:
darkMode is the string "class", content is a one-element array holding a
glob pattern, theme is an object whose sole field extend is an empty
object, and plugins is an empty array. -/
def tailwindConfig : Value :=
  Value.obj
    [ ("darkMode", Value.str "class")
    , ("content", Value.arr [Value.str "./src/**/*.\x7bastro,html,js,jsx,ts,tsx\x7d"])
    , ("theme", Value.obj [("extend", Value.obj [])])
    , ("plugins", Value.arr [])
    ]

/-- The single glob pattern that appears in the content array of
src/tailwind.config.cjs (line 3). -/
def contentGlob : String := "./src/**/*.\x7bastro,html,js,jsx,ts,tsx\x7d"

/-- Splits a character list into the maximal runs separated by the given
character (the usual comma-splitting of a brace group). -/
def splitOnChar (c : Char) : List Char → List (List Char)
  | [] => [[]]
  | x :: xs =>
      let rest := splitOnChar c xs
      if x == c then [] :: rest
      else
        match rest with
        | r :: rs => (x :: r) :: rs
        | [] => [[x]]

/-- The comma-separated alternatives of the first brace group of a glob
pattern: the text strictly between the first opening brace and the first
closing brace, split on commas.  This is the extension set the pattern
matches against. -/
def braceAlternatives (s : String) : List String :=
  let afterOpen := ((s.toList).dropWhile (fun c => c != '\x7b')).drop 1
  let group := afterOpen.takeWhile (fun c => c != '\x7d')
  (splitOnChar ',' group).map (fun cs => String.mk cs)

/-- Modelled from the spec: the consuming build tool loads the
configuration by evaluating the CommonJS module; the module body is a
single constant object literal, so each evaluation (indexed here by a
counter) yields the same value with no effects or mutable state. -/
def evalConfigModule : Nat → Value := fun _ => tailwindConfig

/-- The shape the external consuming tool accepts, as the spec states it:
darkMode holds a string, content a list of strings, theme a mapping, and
plugins a list. -/
def acceptedShape (v : Value) : Bool :=
  ((v.lookup "darkMode").map Value.isStr).getD false &&
  ((v.lookup "content").map Value.isArrOfStr).getD false &&
  ((v.lookup "theme").map Value.isObj).getD false &&
  ((v.lookup "plugins").map Value.isArr).getD false

/-- C1: the exported configuration object has exactly the four top-level
fields darkMode, content, theme and plugins in that order, and its theme
field is a mapping containing the key extend. -/
theorem config_top_level_fields :
    tailwindConfig.keys = ["darkMode", "content", "theme", "plugins"] ∧
    ∃ t : Value, tailwindConfig.lookup "theme" = some t ∧ "extend" ∈ t.keys := by
  refine ⟨rfl, Value.obj [("extend", Value.obj [])], rfl, by simp [Value.keys]⟩

/-- C2: the darkMode field of the configuration is the fixed string
"class", selecting the class-based dark-theme activation strategy. -/
theorem config_darkMode_class :
    tailwindConfig.lookup "darkMode" = some (Value.str "class") := by
  rfl

/-- C3: the content field of the configuration is an array, an ordered
list, every element of which is a string (a glob pattern). -/
theorem config_content_array_of_strings :
    ∃ xs : List Value,
      tailwindConfig.lookup "content" = some (Value.arr xs) ∧
      xs.all Value.isStr = true := by
  exact ⟨[Value.str contentGlob], rfl, rfl⟩

/-- C4: theme.extend in the configuration is an empty mapping with no
style-token override entries. -/
theorem config_theme_extend_empty :
    ∃ t : Value, tailwindConfig.lookup "theme" = some t ∧
      t.lookup "extend" = some (Value.obj []) := by
  exact ⟨Value.obj [("extend", Value.obj [])], rfl, rfl⟩

/-- C5: the plugins field of the configuration is an empty array, holding
no plugin references. -/
theorem config_plugins_empty :
    tailwindConfig.lookup "plugins" = some (Value.arr []) := by
  rfl

/-- C6: the configuration is a well-formed value of the shape the
consuming tool accepts: darkMode a string, content a list of strings,
theme a mapping, plugins a list. -/
theorem config_accepted_shape :
    acceptedShape tailwindConfig = true := by
  rfl

/-- C7: evaluating the configuration module is pure and constant: any two
evaluations yield the same value, the exported configuration object. -/
theorem config_module_pure :
    ∀ m n : Nat, evalConfigModule m = evalConfigModule n ∧
      evalConfigModule m = tailwindConfig := by
  intro m n; exact ⟨rfl, rfl⟩

/-- C8: the content list is exactly the one glob pattern of line 3, and
the brace group of that pattern lists exactly the six extensions astro,
html, js, jsx, ts, tsx. -/
theorem config_content_single_glob :
    tailwindConfig.lookup "content" = some (Value.arr [Value.str contentGlob]) ∧
    braceAlternatives contentGlob = ["astro", "html", "js", "jsx", "ts", "tsx"] ∧
    List.isPrefixOf "./src/".toList contentGlob.toList = true := by
  refine ⟨rfl, by decide, by decide⟩

/-- C9: the theme mapping of the configuration contains exactly the
single key extend, so no default theme token outside theme.extend is
overridden. -/
theorem config_theme_only_extend :
    ∃ t : Value, tailwindConfig.lookup "theme" = some t ∧
      t.keys = ["extend"] := by
  exact ⟨Value.obj [("extend", Value.obj [])], rfl, rfl⟩
